import Mathlib

/-!
# Verification of the docker_manager control-plane API service

Shallow embedding of `src/docker_manager_api/index.js` (an Express server
proxying the Docker Engine API).  Each route handler is modelled as a pure
function from the request data and the engine-call outcome (the value or
error that the awaited dockerode call produced) to the HTTP response it
sends, together with the chronological list of engine calls it issued.
JavaScript strings are Lean `String`s; `undefined`/missing request fields
are `Option.none`; JS string falsiness (`undefined` or `""`) is modelled
explicitly.
-/

namespace DockerManagerApi

/-- Errors reported by the engine adapter (dockerode).  The constructors
record the kind of engine failure; the handler code in `index.js` only ever
reads `error.message`. -/
inductive EngineError where
  | notFound (msg : String)
  | conflict (msg : String)
  | unavailable (msg : String)
  | other (msg : String)

/-- `error.message` of an engine error. -/
def EngineError.message : EngineError → String
  | .notFound m => m
  | .conflict m => m
  | .unavailable m => m
  | .other m => m

/-- Summary of a container as produced by the `GET /containers` handler. -/
structure ContainerSummary where
  id : String
  name : String
  image : String
  status : String
  state : String
  createdAt : Nat

/-- Summary of an image as produced by the `GET /images` handler. -/
structure ImageSummary where
  id : String
  name : String
  size : String

/-- Summary of a network as produced by the `GET /networks` handler. -/
structure NetworkSummary where
  id : String
  name : String

/-- Summary of a volume as produced by the `GET /volumes` handler. -/
structure VolumeSummary where
  name : String
  mountpoint : String
  size : String

/-- The JSON payloads that the service puts in the `data` field. -/
inductive Payload where
  | containers (l : List ContainerSummary)
  | images (l : List ImageSummary)
  | networks (l : List NetworkSummary)
  | volumes (l : List VolumeSummary)

/-- The JSON response envelope produced by `sendResponse`:
`res.status(statusCode).json({ message, data })`. -/
structure EnvResponse where
  status : Nat
  message : String
  data : Option Payload

/-- `sendResponse(res, statusCode, message, data = null)` from `index.js`. -/
def sendResponse (statusCode : Nat) (message : String) (data : Option Payload) :
    EnvResponse :=
  { status := statusCode, message := message, data := data }

/-- `handleServerError(res, error, defaultMessage)` from `index.js`:
sends status 500 with message `"${defaultMessage}: ${error.message}"` and no
data. -/
def handleServerError (error : EngineError) (defaultMessage : String) :
    EnvResponse :=
  sendResponse 500 (defaultMessage ++ ": " ++ error.message) none

/-- Container-creation options assembled by the `POST /containers` handler
and passed to `docker.createContainer`.  The port-binding map is an ordered
association list from `<container-port>/<proto>` keys to the bound host
port (the JS object `{ key: [{ HostPort: hostPort }] }`). -/
structure CreateOptions where
  Image : String
  name : String
  networkingConfig : Option String
  binds : Option (List String)
  portBindings : Option (List (String × String))

/-- One call into the engine adapter (dockerode), as issued by a handler. -/
inductive EngineCall where
  | listContainers
  | startContainer (id : String)
  | stopContainer (id : String)
  | restartContainer (id : String)
  | removeContainer (id : String)
  | inspectImage (image : String)
  | pull (image : String)
  | createContainer (opts : CreateOptions)
  | containerLogs (id : String)
  | listImages
  | removeImage (name : String)
  | listNetworks
  | createNetwork (name : String)
  | listVolumes
  | createVolume (name : String)
  | removeVolume (name : String)

/-- JS truthiness test for a request-body string field: `!x` is true when
the field is absent (`undefined`) or the empty string. -/
def falsyField : Option String → Bool
  | none => true
  | some s => s.isEmpty

/-- Rendering of a possibly-`undefined` JS string inside a template
literal (`${x}` prints `undefined` when the value is absent). -/
def jsShow : Option String → String
  | none => "undefined"
  | some s => s

/-- `POST /containers/:id/start` handler: issues `container.start()` and
maps the outcome.  `result` is the outcome of the awaited engine call. -/
def startContainerRoute (id : String) (result : Except EngineError Unit) :
    EnvResponse × List EngineCall :=
  (match result with
    | .ok _ => sendResponse 200 ("Container " ++ id ++ " started") none
    | .error e => handleServerError e "Failed to start container",
   [EngineCall.startContainer id])

/-- `POST /containers/:id/stop` handler. -/
def stopContainerRoute (id : String) (result : Except EngineError Unit) :
    EnvResponse × List EngineCall :=
  (match result with
    | .ok _ => sendResponse 200 ("Container " ++ id ++ " stopped") none
    | .error e => handleServerError e "Failed to stop container",
   [EngineCall.stopContainer id])

/-- `POST /containers/:id/restart` handler. -/
def restartContainerRoute (id : String) (result : Except EngineError Unit) :
    EnvResponse × List EngineCall :=
  (match result with
    | .ok _ => sendResponse 200 ("Container " ++ id ++ " restarted") none
    | .error e => handleServerError e "Failed to restart container",
   [EngineCall.restartContainer id])

/-- `DELETE /containers/:id` handler: issues `container.remove()` and maps
the outcome. -/
def deleteContainerRoute (id : String) (result : Except EngineError Unit) :
    EnvResponse × List EngineCall :=
  (match result with
    | .ok _ => sendResponse 200 ("Container " ++ id ++ " deleted") none
    | .error e => handleServerError e "Failed to delete container",
   [EngineCall.removeContainer id])

/-- JS `String.prototype.split` with a single-character separator,
modelled on the character list: `"".split(s)` is `[""]` and a trailing
separator yields a trailing empty field, as in JS. -/
def splitOnChar (sep : Char) : List Char → List (List Char)
  | [] => [[]]
  | c :: rest =>
    match splitOnChar sep rest with
    | [] => [[]]
    | g :: gs => if c = sep then [] :: g :: gs else (c :: g) :: gs

/-- The body of the `portBindings.forEach` loop in the `POST /containers`
handler: split the spec on `":"`, destructure the first two fields into
`hostPort` and `containerPort` (a missing field is `undefined`, modelled
as the empty field, which is equally falsy), and when both are truthy
produce the entry
`containerPort.includes("/") ? containerPort : containerPort + "/tcp"`
mapped to `[{ HostPort: hostPort }]` (the host port is kept as the entry
value). -/
def parseBinding (binding : String) : Option (String × String) :=
  let parts := splitOnChar ':' binding.toList
  let hostPort := parts.getD 0 []
  let containerPort := parts.getD 1 []
  if hostPort.isEmpty || containerPort.isEmpty then none
  else
    some
      (if '/' ∈ containerPort then String.mk containerPort
        else String.mk containerPort ++ "/tcp",
       String.mk hostPort)

/-- JS object property assignment `m[k] = v`: overwrites an existing key in
place, otherwise appends the new property. -/
def assocSet (m : List (String × String)) (k v : String) :
    List (String × String) :=
  match m with
  | [] => [(k, v)]
  | (k', v') :: rest =>
      if k' = k then (k, v) :: rest else (k', v') :: assocSet rest k v

/-- One iteration of the `portBindings.forEach` loop: a spec that parses
adds its entry to the object, a malformed one leaves it unchanged. -/
def portBindingStep (m : List (String × String)) (binding : String) :
    List (String × String) :=
  match parseBinding binding with
  | none => m
  | some (key, host) => assocSet m key host

/-- The `formattedPortBindings` object built by the
`portBindings.forEach` loop. -/
def formatPortBindings (l : List String) : List (String × String) :=
  l.foldl portBindingStep []

/-- The JSON body of a `POST /containers` request
(`{ Image, name, networkName, volumeBinds, portBindings }`); absent fields
are `none`. -/
structure CreateBody where
  Image : Option String
  name : Option String
  networkName : Option String
  volumeBinds : Option (List String)
  portBindings : Option (List String)

/-- Outcomes of the engine calls the `POST /containers` handler may issue:
whether `docker.getImage(Image).inspect()` succeeds (image present
locally), the terminal outcome `followProgress` reports for a pull, and
the outcome of `docker.createContainer`. -/
structure CreateEnv where
  imagePresent : Bool
  pullResult : Except EngineError Unit
  createResult : Except EngineError Unit

/-- The `createOptions` object assembled by the `POST /containers` handler:
`NetworkingConfig.EndpointsConfig[networkName]` when `networkName` is
truthy, `HostConfig.Binds` when `volumeBinds` is an array, and
`HostConfig.PortBindings` from the formatted port-binding specs. -/
def buildCreateOptions (body : CreateBody) : CreateOptions :=
  { Image := body.Image.getD ""
    name := body.name.getD ""
    networkingConfig :=
      if falsyField body.networkName then none else body.networkName
    binds := body.volumeBinds
    portBindings := body.portBindings.map formatPortBindings }

/-- `POST /containers` handler: validates `Image` and `name`, checks the
image locally via `inspect`, pulls it (awaiting `followProgress`) when the
inspect fails, then calls `createContainer`.  Returns the response and the
chronological list of engine calls issued. -/
def createContainerRoute (body : CreateBody) (env : CreateEnv) :
    EnvResponse × List EngineCall :=
  if falsyField body.Image || falsyField body.name then
    (sendResponse 400 "Image and name are required in the request body."
      none, [])
  else
    let img := body.Image.getD ""
    let afterImage : List EngineCall → EnvResponse × List EngineCall :=
      fun calls =>
        let opts := buildCreateOptions body
        let calls := calls ++ [EngineCall.createContainer opts]
        match env.createResult with
        | .ok _ =>
            (sendResponse 201
              ("Container " ++ body.name.getD "" ++ " created successfully")
              none, calls)
        | .error e =>
            (handleServerError e "Failed to create container", calls)
    if env.imagePresent then
      afterImage [EngineCall.inspectImage img]
    else
      match env.pullResult with
      | .error e =>
          (handleServerError e "Failed to create container",
           [EngineCall.inspectImage img, EngineCall.pull img])
      | .ok _ =>
          afterImage [EngineCall.inspectImage img, EngineCall.pull img]

/-- `POST /networks` handler: validates `name`, then calls
`docker.createNetwork({ name })`.  The success payload is the `name`
property of the object the adapter returns (read by the template literal
`Network ${network.name} created successfully`). -/
def createNetworkRoute (name : Option String)
    (result : Except EngineError (Option String)) :
    EnvResponse × List EngineCall :=
  if falsyField name then
    (sendResponse 400 "Network name is required." none, [])
  else
    (match result with
      | .ok netName =>
          sendResponse 201
            ("Network " ++ jsShow netName ++ " created successfully") none
      | .error e => handleServerError e "Failed to create network",
     [EngineCall.createNetwork (name.getD "")])

/-- `POST /volumes` handler: validates `name`, then calls
`docker.createVolume({ name })`. -/
def createVolumeRoute (name : Option String)
    (result : Except EngineError (Option String)) :
    EnvResponse × List EngineCall :=
  if falsyField name then
    (sendResponse 400 "Volume name is required." none, [])
  else
    (match result with
      | .ok volName =>
          sendResponse 201
            ("Volume " ++ jsShow volName ++ " created successfully") none
      | .error e => handleServerError e "Failed to create volume",
     [EngineCall.createVolume (name.getD "")])

/-- Engine-reported container descriptor fields read by the
`GET /containers` handler. -/
structure ContainerInfo where
  Id : String
  Names : List String
  Image : String
  Status : String
  State : String
  Created : Nat

/-- JS `String.prototype.replace` with the one-character string pattern
`"/"` and empty replacement, as in `container.Names[0].replace("/", "")`:
removes the first occurrence of `'/'` only, wherever it occurs. -/
def jsReplaceFirstSlash : List Char → List Char
  | [] => []
  | c :: rest => if c = '/' then rest else c :: jsReplaceFirstSlash rest

/-- Projection of one engine container descriptor to a `ContainerSummary`,
as in the `GET /containers` map.  (`Names[0]` on an empty alias list is
`undefined` in JS and `.replace` on it would throw; the model reads the
empty string for that out-of-contract case.) -/
def projectContainer (c : ContainerInfo) : ContainerSummary :=
  { id := c.Id
    name := String.mk (jsReplaceFirstSlash (c.Names.headD "").toList)
    image := c.Image
    status := c.Status
    state := c.State
    createdAt := c.Created }

/-- `GET /containers` handler. -/
def listContainersRoute (result : Except EngineError (List ContainerInfo)) :
    EnvResponse × List EngineCall :=
  (match result with
    | .ok containers =>
        sendResponse 200 "Containers fetched successfully"
          (some (Payload.containers (containers.map projectContainer)))
    | .error e => handleServerError e "Failed to list containers",
   [EngineCall.listContainers])

/-- Decimal digit characters of a natural number. -/
def natDigits (n : Nat) : List Char := Nat.toDigits 10 n

/-- `(bytes / (1024 * 1024)).toFixed(2)`: a byte count as megabytes with
two decimals.  The JS floating-point division plus `toFixed(2)` is
modelled in exact rational arithmetic, rounding the hundredths half-up. -/
def toFixed2MB (bytes : Nat) : String :=
  let hundredths := (bytes * 100 + 524288) / 1048576
  String.mk (natDigits (hundredths / 100)) ++ "." ++
    (if hundredths % 100 < 10 then "0" else "") ++
    String.mk (natDigits (hundredths % 100))

/-- Engine-reported volume fields read by the `GET /volumes` handler;
`UsageData` is `null` when the engine reports no usage data, otherwise it
carries `UsageData.Size` in bytes. -/
structure VolumeInfo where
  Name : String
  Mountpoint : String
  UsageData : Option Nat

/-- Projection of one volume to a `VolumeSummary`:
`size` is `UsageData ? "<MB>.toFixed(2)> MB" : "N/A"`. -/
def projectVolume (v : VolumeInfo) : VolumeSummary :=
  { name := v.Name
    mountpoint := v.Mountpoint
    size :=
      match v.UsageData with
      | some bytes => toFixed2MB bytes ++ " MB"
      | none => "N/A" }

/-- `GET /volumes` handler. -/
def listVolumesRoute (result : Except EngineError (List VolumeInfo)) :
    EnvResponse × List EngineCall :=
  (match result with
    | .ok volumes =>
        sendResponse 200 "Volumes fetched successfully"
          (some (Payload.volumes (volumes.map projectVolume)))
    | .error e => handleServerError e "Failed to list volumes",
   [EngineCall.listVolumes])

/-- `DELETE /volumes/:name` handler. -/
def deleteVolumeRoute (name : String) (result : Except EngineError Unit) :
    EnvResponse × List EngineCall :=
  (match result with
    | .ok _ => sendResponse 200 ("Volume " ++ name ++ " deleted") none
    | .error e => handleServerError e "Failed to delete volume",
   [EngineCall.removeVolume name])

/-- Engine-reported image fields read by the `GET /images` handler. -/
structure ImageInfo where
  Id : String
  RepoTags : List String
  Size : Nat

/-- Projection of one image to an `ImageSummary`:
`name` is `image.RepoTags[0] || "<none>"`. -/
def projectImage (i : ImageInfo) : ImageSummary :=
  { id := i.Id
    name :=
      if (i.RepoTags.headD "").isEmpty then "<none>"
      else i.RepoTags.headD ""
    size := toFixed2MB i.Size ++ " MB" }

/-- `GET /images` handler. -/
def listImagesRoute (result : Except EngineError (List ImageInfo)) :
    EnvResponse × List EngineCall :=
  (match result with
    | .ok images =>
        sendResponse 200 "Images fetched successfully"
          (some (Payload.images (images.map projectImage)))
    | .error e => handleServerError e "Failed to list images",
   [EngineCall.listImages])

/-- `DELETE /images/:name` handler. -/
def deleteImageRoute (name : String) (result : Except EngineError Unit) :
    EnvResponse × List EngineCall :=
  (match result with
    | .ok _ => sendResponse 200 ("Image " ++ name ++ " deleted") none
    | .error e => handleServerError e "Failed to delete image",
   [EngineCall.removeImage name])

/-- `POST /images/:name/pull` handler: awaits the pull's terminal
`followProgress` outcome, then responds. -/
def pullImageRoute (name : String) (result : Except EngineError Unit) :
    EnvResponse × List EngineCall :=
  (match result with
    | .ok _ =>
        sendResponse 200 ("Image " ++ name ++ " pulled successfully") none
    | .error e => handleServerError e "Failed to pull image",
   [EngineCall.pull name])

/-- Engine-reported network fields read by the `GET /networks` handler. -/
structure NetworkInfo where
  Id : String
  Name : String

/-- `GET /networks` handler. -/
def listNetworksRoute (result : Except EngineError (List NetworkInfo)) :
    EnvResponse × List EngineCall :=
  (match result with
    | .ok networks =>
        sendResponse 200 "Networks fetched successfully"
          (some (Payload.networks (networks.map
            fun n => NetworkSummary.mk n.Id n.Name)))
    | .error e => handleServerError e "Failed to list networks",
   [EngineCall.listNetworks])

/-- A full HTTP response: either the JSON envelope sent by
`sendResponse`, or the raw text chunks written with `res.write` on the
log-stream success path. -/
inductive HttpResponse where
  | env (r : EnvResponse)
  | stream (chunks : List String)

/-- Whether a response is the JSON `{message, data}` envelope. -/
def HttpResponse.isEnvelope : HttpResponse → Bool
  | .env _ => true
  | .stream _ => false

/-- `GET /containers/:id/logs` handler: on success, each chunk of the log
stream is written raw to the response (`res.write(chunk.toString())`) and
the response ends when the stream ends; on failure `handleServerError`
sends the envelope. -/
def containerLogsRoute (id : String)
    (result : Except EngineError (List String)) :
    HttpResponse × List EngineCall :=
  (match result with
    | .ok chunks => HttpResponse.stream chunks
    | .error e =>
        HttpResponse.env (handleServerError e "Failed to get container logs"),
   [EngineCall.containerLogs id])

/-- HTTP methods used by the routes of `index.js`. -/
inductive Method where
  | get
  | post
  | delete
deriving DecidableEq

/-- A segment of an Express route pattern: a literal or a `:param`. -/
inductive PatSeg where
  | lit (s : String)
  | param (nm : String)

/-- The routes registered on the Express app in `index.js`, in
registration order. -/
def routes : List (Method × List PatSeg) :=
  [ (Method.get, [PatSeg.lit "containers"]),
    (Method.post, [PatSeg.lit "containers", PatSeg.param "id",
      PatSeg.lit "start"]),
    (Method.post, [PatSeg.lit "containers", PatSeg.param "id",
      PatSeg.lit "stop"]),
    (Method.post, [PatSeg.lit "containers", PatSeg.param "id",
      PatSeg.lit "restart"]),
    (Method.delete, [PatSeg.lit "containers", PatSeg.param "id"]),
    (Method.post, [PatSeg.lit "containers"]),
    (Method.get, [PatSeg.lit "containers", PatSeg.param "id",
      PatSeg.lit "logs"]),
    (Method.get, [PatSeg.lit "images"]),
    (Method.delete, [PatSeg.lit "images", PatSeg.param "name"]),
    (Method.post, [PatSeg.lit "images", PatSeg.param "name",
      PatSeg.lit "pull"]),
    (Method.get, [PatSeg.lit "networks"]),
    (Method.post, [PatSeg.lit "networks"]),
    (Method.get, [PatSeg.lit "volumes"]),
    (Method.post, [PatSeg.lit "volumes"]),
    (Method.delete, [PatSeg.lit "volumes", PatSeg.param "name"]) ]

/-- Whether one pattern segment matches one path segment (an Express
`:param` matches any segment). -/
def segMatches : PatSeg → String → Bool
  | .lit s, t => s = t
  | .param _, _ => true

/-- Whether a route pattern matches a path, segment by segment. -/
def matchesPath : List PatSeg → List String → Bool
  | [], [] => true
  | p :: ps, s :: ss => segMatches p s && matchesPath ps ss
  | _, _ => false

/-- Express dispatch: the first registered route whose method and pattern
match the request; `none` means the framework's default 404 applies. -/
def routeFor (m : Method) (path : List String) :
    Option (Method × List PatSeg) :=
  routes.find? fun r => decide (r.1 = m) && matchesPath r.2 path

/-- With validation passed, the engine-call trace of `POST /containers` by
case on image presence and pull outcome. -/
theorem createContainerRoute_calls (body : CreateBody) (env : CreateEnv)
    (hI : falsyField body.Image = false) (hn : falsyField body.name = false) :
    (createContainerRoute body env).2 =
      if env.imagePresent then
        [EngineCall.inspectImage (body.Image.getD ""),
         EngineCall.createContainer (buildCreateOptions body)]
      else
        match env.pullResult with
        | .ok _ =>
            [EngineCall.inspectImage (body.Image.getD ""),
             EngineCall.pull (body.Image.getD ""),
             EngineCall.createContainer (buildCreateOptions body)]
        | .error _ =>
            [EngineCall.inspectImage (body.Image.getD ""),
             EngineCall.pull (body.Image.getD "")] := by
  simp only [createContainerRoute, hI, hn, Bool.or_self, Bool.false_eq_true,
    if_false]
  cases env.imagePresent <;> cases env.pullResult <;>
    cases env.createResult <;> rfl

end DockerManagerApi

namespace DockerManagerApi

/-- C1: the claim asserts that an unknown-container error on
`POST /containers/:id/start` yields HTTP 404.  The code routes every engine
error through `handleServerError`, which always sends 500: at the concrete
input of a not-found engine error, the response status is 500, not 404. -/
theorem C1_counterexample :
    (startContainerRoute "c1"
        (Except.error (EngineError.notFound "no such container"))).1.status
      = 500 ∧
    (startContainerRoute "c1"
        (Except.error (EngineError.notFound "no such container"))).1.status
      ≠ 404 := by
  constructor
  · rfl
  · decide

/-- C1 (amended): every adapter failure on start/stop/restart/delete is
mapped to exactly one HTTP status, namely 500, with the handler's default
message followed by the engine error's message; no 404/409/502/503 mapping
exists in the code. -/
theorem C1_all_errors_map_to_500 (id : String) (e : EngineError) :
    (startContainerRoute id (Except.error e)).1.status = 500 ∧
    (stopContainerRoute id (Except.error e)).1.status = 500 ∧
    (restartContainerRoute id (Except.error e)).1.status = 500 ∧
    (deleteContainerRoute id (Except.error e)).1.status = 500 ∧
    (startContainerRoute id (Except.error e)).1.message
      = "Failed to start container" ++ ": " ++ e.message ∧
    (deleteContainerRoute id (Except.error e)).1.message
      = "Failed to delete container" ++ ": " ++ e.message := by
  refine ⟨rfl, rfl, rfl, rfl, rfl, rfl⟩

/-- C4: the claim asserts HTTP 409 for deleting a running container.  The
engine rejects the remove with a conflict error, but the handler routes it
through `handleServerError`, which sends 500: at the concrete conflict
input the status is 500, not 409. -/
theorem C4_counterexample :
    (deleteContainerRoute "c2"
        (Except.error (EngineError.conflict
          "cannot remove a running container"))).1.status = 500 ∧
    (deleteContainerRoute "c2"
        (Except.error (EngineError.conflict
          "cannot remove a running container"))).1.status ≠ 409 := by
  constructor
  · rfl
  · decide

/-- C4 (amended): deleting a running container returns HTTP 500 (the
conflict error is routed through `handleServerError`), and the handler
issues exactly the single `remove` engine call — it performs no other
engine action, so the service never partially removes the container. -/
theorem C4_delete_running_is_500_single_call (id : String) (msg : String) :
    (deleteContainerRoute id
        (Except.error (EngineError.conflict msg))).1.status = 500 ∧
    (deleteContainerRoute id (Except.error (EngineError.conflict msg))).2
      = [EngineCall.removeContainer id] := by
  exact ⟨rfl, rfl⟩


theorem splitOnChar_ne_nil (sep : Char) (l : List Char) :
    splitOnChar sep l ≠ [] := by
  cases l with
  | nil => simp [splitOnChar]
  | cons c rest =>
    simp only [splitOnChar]
    cases splitOnChar sep rest with
    | nil => simp
    | cons g gs => by_cases hc : c = sep <;> simp [hc]

theorem splitOnChar_not_mem (sep : Char) (l : List Char) (h : sep ∉ l) :
    splitOnChar sep l = [l] := by
  induction l with
  | nil => rfl
  | cons c rest ih =>
    have hc : c ≠ sep := fun e => h (e ▸ List.mem_cons_self c rest)
    have hr : sep ∉ rest := fun e => h (List.mem_cons_of_mem c e)
    simp only [splitOnChar, ih hr]
    simp [hc]

theorem splitOnChar_append (sep : Char) (h t : List Char) (hh : sep ∉ h) :
    splitOnChar sep (h ++ sep :: t) = h :: splitOnChar sep t := by
  induction h with
  | nil =>
    simp only [List.nil_append, splitOnChar]
    cases hs : splitOnChar sep t with
    | nil => exact absurd hs (splitOnChar_ne_nil sep t)
    | cons g gs => simp
  | cons c h' ih =>
    have hc : c ≠ sep := fun e => hh (e ▸ List.mem_cons_self c h')
    have hh' : sep ∉ h' := fun e => hh (List.mem_cons_of_mem c e)
    simp only [List.cons_append, splitOnChar, ih hh']
    simp [hc]
    rw [ih hh']

/-- C6: the port-binding parser maps `"8080:80"` to the entry
`"80/tcp" ↦ "8080"` and `"8080:80/udp"` to `"80/udp" ↦ "8080"`, and in
general a well-formed `HOSTPORT:CONTAINERPORT` spec whose container part
carries no protocol suffix gets the default `"/tcp"` protocol. -/
theorem C6_port_binding_defaults :
    parseBinding "8080:80" = some ("80/tcp", "8080") ∧
    parseBinding "8080:80/udp" = some ("80/udp", "8080") ∧
    ∀ (h c : List Char), h ≠ [] → c ≠ [] → ':' ∉ h → ':' ∉ c → '/' ∉ c →
      parseBinding (String.mk (h ++ ':' :: c)) =
        some (String.mk c ++ "/tcp", String.mk h) := by
  refine ⟨by decide, by decide, ?_⟩
  intro h c hh hc hsh hsc hslash
  have hhe : h.isEmpty = false := by
    cases h with
    | nil => exact absurd rfl hh
    | cons x xs => rfl
  have hce : c.isEmpty = false := by
    cases c with
    | nil => exact absurd rfl hc
    | cons x xs => rfl
  have hlist : (String.mk (h ++ ':' :: c)).toList = h ++ ':' :: c := rfl
  unfold parseBinding
  rw [hlist, splitOnChar_append ':' h c hsh, splitOnChar_not_mem ':' c hsc]
  simp [List.getD, hhe, hce, hslash]

theorem C6_port_binding_defaults_witness :
    parseBinding (String.mk (['9', '0', '9', '0'] ++ ':' :: ['8', '1'])) =
      some (String.mk ['8', '1'] ++ "/tcp", String.mk ['9', '0', '9', '0']) :=
  C6_port_binding_defaults.2.2 ['9', '0', '9', '0'] ['8', '1']
    (by decide) (by decide) (by decide) (by decide) (by decide)

theorem foldl_portBindingStep_filter (l : List String) :
    ∀ acc, l.foldl portBindingStep acc =
      (l.filter fun b => (parseBinding b).isSome).foldl portBindingStep acc := by
  induction l with
  | nil => intro acc; rfl
  | cons b rest ih =>
    intro acc
    cases hb : parseBinding b with
    | none =>
      have hstep : portBindingStep acc b = acc := by
        simp [portBindingStep, hb]
      simp only [List.foldl_cons, List.filter_cons, hb, Option.isSome_none,
        Bool.false_eq_true, if_false, hstep]
      exact ih acc
    | some kv =>
      simp only [List.foldl_cons, List.filter_cons, hb, Option.isSome_some,
        if_true]
      exact ih _

/-- C7: malformed port-binding specs (a missing host or container side)
are dropped from the formatted map — the map equals the one built from
just the well-formed specs — and the `POST /containers` request as a whole
is completely unaffected by the malformed entries. -/
theorem C7_malformed_bindings_dropped :
    (∀ l : List String,
      formatPortBindings l =
        formatPortBindings (l.filter fun b => (parseBinding b).isSome)) ∧
    (∀ (body : CreateBody) (env : CreateEnv) (l : List String),
      createContainerRoute { body with portBindings := some l } env =
        createContainerRoute
          { body with
            portBindings := some (l.filter fun b => (parseBinding b).isSome) }
          env) := by
  have hf : ∀ l : List String,
      formatPortBindings l =
        formatPortBindings (l.filter fun b => (parseBinding b).isSome) :=
    fun l => foldl_portBindingStep_filter l []
  refine ⟨hf, ?_⟩
  intro body env l
  simp [createContainerRoute, buildCreateOptions, hf l]

/-- C2: with a valid body, `POST /containers` never pulls when the image
is present locally; when it is absent it issues exactly one pull (a pull
call occurs at exactly one position of the engine-call trace), every
`createContainer` call comes strictly after the pull in the trace (only
once the pull's terminal `followProgress` outcome was observed), and a
failed pull means `createContainer` is never called. -/
theorem C2_pull_then_create (body : CreateBody) (env : CreateEnv)
    (hI : falsyField body.Image = false)
    (hn : falsyField body.name = false) :
    (env.imagePresent = true →
      ∀ s, EngineCall.pull s ∉ (createContainerRoute body env).2) ∧
    (env.imagePresent = false →
      (∃ i, ((createContainerRoute body env).2).get? i =
          some (EngineCall.pull (body.Image.getD ""))) ∧
      (∀ i j,
        ((createContainerRoute body env).2).get? i =
            some (EngineCall.pull (body.Image.getD "")) →
        ((createContainerRoute body env).2).get? j =
            some (EngineCall.pull (body.Image.getD "")) → i = j) ∧
      (∀ i j opts,
        ((createContainerRoute body env).2).get? i =
            some (EngineCall.pull (body.Image.getD "")) →
        ((createContainerRoute body env).2).get? j =
            some (EngineCall.createContainer opts) → i < j) ∧
      (∀ e, env.pullResult = Except.error e →
        ∀ opts,
          EngineCall.createContainer opts ∉
            (createContainerRoute body env).2)) := by
  have hcalls := createContainerRoute_calls body env hI hn
  constructor
  · intro hp s
    rw [hcalls, if_pos hp]
    simp
  · intro hp
    rw [hcalls, if_neg (by simp [hp])]
    cases hpr : env.pullResult with
    | ok u =>
      refine ⟨⟨1, rfl⟩, ?_, ?_, ?_⟩
      · intro i j hi hj
        have hi1 : i = 1 := by
          cases i with
          | zero => simp at hi
          | succ i2 =>
            cases i2 with
            | zero => rfl
            | succ i3 =>
              cases i3 with
              | zero => simp at hi
              | succ i4 => simp at hi
        have hj1 : j = 1 := by
          cases j with
          | zero => simp at hj
          | succ j2 =>
            cases j2 with
            | zero => rfl
            | succ j3 =>
              cases j3 with
              | zero => simp at hj
              | succ j4 => simp at hj
        rw [hi1, hj1]
      · intro i j opts hi hj
        have hi1 : i = 1 := by
          cases i with
          | zero => simp at hi
          | succ i2 =>
            cases i2 with
            | zero => rfl
            | succ i3 =>
              cases i3 with
              | zero => simp at hi
              | succ i4 => simp at hi
        have hj2 : j = 2 := by
          cases j with
          | zero => simp at hj
          | succ j2 =>
            cases j2 with
            | zero => simp at hj
            | succ j3 =>
              cases j3 with
              | zero => rfl
              | succ j4 => simp at hj
        rw [hi1, hj2]
        exact Nat.one_lt_two
      · intro e he opts
        exact absurd he (by simp)
    | error e =>
      refine ⟨⟨1, rfl⟩, ?_, ?_, ?_⟩
      · intro i j hi hj
        have hi1 : i = 1 := by
          cases i with
          | zero => simp at hi
          | succ i2 =>
            cases i2 with
            | zero => rfl
            | succ i3 => simp at hi
        have hj1 : j = 1 := by
          cases j with
          | zero => simp at hj
          | succ j2 =>
            cases j2 with
            | zero => rfl
            | succ j3 => simp at hj
        rw [hi1, hj1]
      · intro i j opts hi hj
        exfalso
        cases j with
        | zero => simp at hj
        | succ j2 =>
          cases j2 with
          | zero => simp at hj
          | succ j3 => simp at hj
      · intro e2 he2 opts
        simp

theorem C2_pull_then_create_witness :
    ∃ i, ((createContainerRoute
        { Image := some "nginx", name := some "web", networkName := none,
          volumeBinds := none, portBindings := none }
        { imagePresent := false, pullResult := Except.ok (),
          createResult := Except.ok () }).2).get? i =
      some (EngineCall.pull "nginx") :=
  ((C2_pull_then_create
      { Image := some "nginx", name := some "web", networkName := none,
        volumeBinds := none, portBindings := none }
      { imagePresent := false, pullResult := Except.ok (),
        createResult := Except.ok () } rfl rfl).2 rfl).1

/-- C5: a `POST /containers` body missing `Image` or `name`, a
`POST /networks` body missing `name`, and a `POST /volumes` body missing
`name` are each answered with HTTP 400 and the handler issues no engine
call at all. -/
theorem C5_validation_no_engine_calls :
    (∀ (body : CreateBody) (env : CreateEnv),
      body.Image = none ∨ body.name = none →
      (createContainerRoute body env).1.status = 400 ∧
      (createContainerRoute body env).2 = []) ∧
    (∀ r, (createNetworkRoute none r).1.status = 400 ∧
      (createNetworkRoute none r).2 = []) ∧
    (∀ r, (createVolumeRoute none r).1.status = 400 ∧
      (createVolumeRoute none r).2 = []) := by
  refine ⟨?_, fun r => ⟨rfl, rfl⟩, fun r => ⟨rfl, rfl⟩⟩
  intro body env h
  have hcond : (falsyField body.Image || falsyField body.name) = true := by
    cases h with
    | inl h => rw [h]; simp [falsyField]
    | inr h => rw [h]; simp [falsyField]
  simp [createContainerRoute, hcond, sendResponse]

theorem C5_validation_no_engine_calls_witness :
    (createContainerRoute
        { Image := none, name := some "web", networkName := none,
          volumeBinds := none, portBindings := none }
        { imagePresent := true, pullResult := Except.ok (),
          createResult := Except.ok () }).1.status = 400 ∧
    (createContainerRoute
        { Image := none, name := some "web", networkName := none,
          volumeBinds := none, portBindings := none }
        { imagePresent := true, pullResult := Except.ok (),
          createResult := Except.ok () }).2 = [] :=
  C5_validation_no_engine_calls.1 _ _ (Or.inl rfl)

/-- C3: the claim asserts a `GET /containers/:id` operation returning the
full descriptor.  No such route is registered in `index.js`: the concrete
request `GET /containers/abc123` matches none of the registered routes, so
the framework's default 404 applies and no descriptor is ever returned. -/
theorem C3_counterexample :
    routeFor Method.get ["containers", "abc123"] = none := rfl

/-- C3 (amended): the service registers no `GET /containers/:id` route at
all — for every identifier, a `GET` of the two-segment path
`containers/<id>` matches no registered route (only `GET /containers`,
`GET /containers/:id/logs` and the non-`GET` container routes exist), so
every such request receives the framework's default 404, regardless of
whether the engine knows the identifier. -/
theorem C3_no_get_container_by_id (id : String) :
    routeFor Method.get ["containers", id] = none := rfl

/-- C8: a volume without engine-reported usage data renders the explicit
`"N/A"` marker; a volume with zero-byte usage renders `"0.00 MB"`; and no
volume with usage data ever renders the marker. -/
theorem C8_volume_size_marker :
    (∀ v : VolumeInfo, v.UsageData = none → (projectVolume v).size = "N/A") ∧
    (∀ v : VolumeInfo, v.UsageData = some 0 →
      (projectVolume v).size = "0.00 MB") ∧
    (∀ (v : VolumeInfo) (bytes : Nat), v.UsageData = some bytes →
      (projectVolume v).size ≠ "N/A") := by
  refine ⟨?_, ?_, ?_⟩
  · intro v h
    simp [projectVolume, h]
  · intro v h
    have hs : (projectVolume v).size = toFixed2MB 0 ++ " MB" := by
      simp [projectVolume, h]
    rw [hs]
    decide
  · intro v bytes h heq
    have hs : (projectVolume v).size = toFixed2MB bytes ++ " MB" := by
      simp [projectVolume, h]
    rw [hs] at heq
    have hlen := congrArg String.length heq
    rw [String.length_append] at hlen
    have ht : toFixed2MB bytes =
        String.mk (natDigits ((bytes * 100 + 524288) / 1048576 / 100)) ++ "." ++
          (if (bytes * 100 + 524288) / 1048576 % 100 < 10 then "0" else "") ++
          String.mk (natDigits ((bytes * 100 + 524288) / 1048576 % 100)) := rfl
    rw [ht] at hlen
    simp only [String.length_append] at hlen
    have hdot : ("." : String).length = 1 := by decide
    have hmb : (" MB" : String).length = 3 := by decide
    have hna : ("N/A" : String).length = 3 := by decide
    omega

theorem C8_volume_size_marker_witness :
    (projectVolume
        { Name := "v1", Mountpoint := "/mnt/v1", UsageData := none }).size
      = "N/A" ∧
    (projectVolume
        { Name := "v2", Mountpoint := "/mnt/v2", UsageData := some 0 }).size
      = "0.00 MB" :=
  ⟨C8_volume_size_marker.1
      { Name := "v1", Mountpoint := "/mnt/v1", UsageData := none } rfl,
   C8_volume_size_marker.2.1
      { Name := "v2", Mountpoint := "/mnt/v2", UsageData := some 0 } rfl⟩

theorem jsReplaceFirstSlash_append (a b : List Char) (ha : '/' ∉ a) :
    jsReplaceFirstSlash (a ++ '/' :: b) = a ++ b := by
  induction a with
  | nil => simp [jsReplaceFirstSlash]
  | cons c rest ih =>
    have hc : c ≠ '/' := fun e => ha (e ▸ List.mem_cons_self c rest)
    have hr : '/' ∉ rest := fun e => ha (List.mem_cons_of_mem c e)
    simp [jsReplaceFirstSlash, hc, ih hr]

theorem jsReplaceFirstSlash_of_not_mem (a : List Char) (ha : '/' ∉ a) :
    jsReplaceFirstSlash a = a := by
  induction a with
  | nil => rfl
  | cons c rest ih =>
    have hc : c ≠ '/' := fun e => ha (e ▸ List.mem_cons_self c rest)
    have hr : '/' ∉ rest := fun e => ha (List.mem_cons_of_mem c e)
    simp [jsReplaceFirstSlash, hc, ih hr]

/-- C9: the claim asserts that an alias whose first `'/'` is not leading
is left unchanged.  The code applies `.replace("/", "")`, which removes
the first `'/'` wherever it occurs: the alias `"web/db"` is displayed as
`"webdb"`, not unchanged. -/
theorem C9_counterexample :
    (projectContainer
        { Id := "c9", Names := ["web/db"], Image := "nginx",
          Status := "Up 2 hours", State := "running",
          Created := 1700000000 }).name = "webdb" ∧
    ("webdb" : String) ≠ "web/db" := by
  exact ⟨by decide, by decide⟩

/-- C9 (amended): the display name is the first engine-reported alias with
the first occurrence of `'/'` removed, wherever that occurrence is — a
leading separator is stripped, and an alias containing no `'/'` is
unchanged. -/
theorem C9_name_strips_first_slash (c : ContainerInfo) (a b : List Char)
    (rest : List String) :
    (c.Names = String.mk (a ++ '/' :: b) :: rest → '/' ∉ a →
      (projectContainer c).name = String.mk (a ++ b)) ∧
    (c.Names = String.mk a :: rest → '/' ∉ a →
      (projectContainer c).name = String.mk a) := by
  constructor
  · intro h ha
    simp only [projectContainer, h, List.headD_cons]
    have ht : (String.mk (a ++ '/' :: b)).toList = a ++ '/' :: b := rfl
    rw [ht, jsReplaceFirstSlash_append a b ha]
  · intro h ha
    simp only [projectContainer, h, List.headD_cons]
    have ht : (String.mk a).toList = a := rfl
    rw [ht, jsReplaceFirstSlash_of_not_mem a ha]

theorem C9_name_strips_first_slash_witness :
    (projectContainer
        { Id := "c0", Names := [String.mk ('/' :: ['w', 'e', 'b'])],
          Image := "nginx", Status := "Up", State := "running",
          Created := 0 }).name = String.mk ['w', 'e', 'b'] :=
  (C9_name_strips_first_slash
      { Id := "c0", Names := [String.mk ('/' :: ['w', 'e', 'b'])],
        Image := "nginx", Status := "Up", State := "running",
        Created := 0 } [] ['w', 'e', 'b'] []).1 rfl (by decide)

/-- C10: the claim asserts that every response on every endpoint is the
JSON envelope `{message, data}`.  The `GET /containers/:id/logs` success
path instead writes the raw log chunks with `res.write`: at a concrete
successful logs request the response is a raw text stream, not the
envelope. -/
theorem C10_counterexample :
    (containerLogsRoute "c10" (Except.ok ["hello\n"])).1 =
      HttpResponse.stream ["hello\n"] ∧
    HttpResponse.isEnvelope
      (containerLogsRoute "c10" (Except.ok ["hello\n"])).1 = false :=
  ⟨rfl, rfl⟩

/-- C10 (amended): every response except the log-stream success path is
the `{message, data}` envelope with `data = null` whenever no payload is
supplied — all action endpoints, all validation 400s and all error paths
(every `handleServerError` response is a 500 envelope with null data) —
while a successful `GET /containers/:id/logs` streams the raw chunks and
its error path uses the same envelope. -/
theorem C10_envelope_uniform :
    (∀ e d, (handleServerError e d).data = none ∧
      (handleServerError e d).status = 500) ∧
    (∀ id r, (startContainerRoute id r).1.data = none) ∧
    (∀ id r, (stopContainerRoute id r).1.data = none) ∧
    (∀ id r, (restartContainerRoute id r).1.data = none) ∧
    (∀ id r, (deleteContainerRoute id r).1.data = none) ∧
    (∀ body env, (createContainerRoute body env).1.data = none) ∧
    (∀ nm r, (createNetworkRoute nm r).1.data = none) ∧
    (∀ nm r, (createVolumeRoute nm r).1.data = none) ∧
    (∀ nm r, (deleteImageRoute nm r).1.data = none) ∧
    (∀ nm r, (pullImageRoute nm r).1.data = none) ∧
    (∀ nm r, (deleteVolumeRoute nm r).1.data = none) ∧
    (∀ e, (listContainersRoute (Except.error e)).1.data = none) ∧
    (∀ e, (listImagesRoute (Except.error e)).1.data = none) ∧
    (∀ e, (listNetworksRoute (Except.error e)).1.data = none) ∧
    (∀ e, (listVolumesRoute (Except.error e)).1.data = none) ∧
    (∀ id e, (containerLogsRoute id (Except.error e)).1 =
      HttpResponse.env
        (handleServerError e "Failed to get container logs")) ∧
    (∀ id chunks, (containerLogsRoute id (Except.ok chunks)).1 =
      HttpResponse.stream chunks) := by
  refine ⟨fun e d => ⟨rfl, rfl⟩, ?_, ?_, ?_, ?_, ?_, ?_, ?_, ?_, ?_, ?_,
    fun e => rfl, fun e => rfl, fun e => rfl, fun e => rfl,
    fun id e => rfl, fun id chunks => rfl⟩
  · intro id r; cases r <;> rfl
  · intro id r; cases r <;> rfl
  · intro id r; cases r <;> rfl
  · intro id r; cases r <;> rfl
  · intro body env
    rcases env with ⟨ip, pr, cr⟩
    unfold createContainerRoute
    by_cases h : (falsyField body.Image || falsyField body.name) = true
    · rw [if_pos h]
      rfl
    · rw [if_neg h]
      cases ip <;> cases pr <;> cases cr <;> rfl
  · intro nm r
    unfold createNetworkRoute
    by_cases h : falsyField nm = true
    · rw [if_pos h]
      rfl
    · rw [if_neg h]
      cases r <;> rfl
  · intro nm r
    unfold createVolumeRoute
    by_cases h : falsyField nm = true
    · rw [if_pos h]
      rfl
    · rw [if_neg h]
      cases r <;> rfl
  · intro nm r; cases r <;> rfl
  · intro nm r; cases r <;> rfl
  · intro nm r; cases r <;> rfl

end DockerManagerApi
